import Mathlib

/-!
Verification development for the schema-diagram pipeline in `src/models.py`.

The script declares six SQLAlchemy tables (user, post, media, comment, like,
follow), then in its `__main__` block builds a graphviz `Digraph` from the
schema metadata under three layout configurations, renders each to a png,
promotes the spaced output to `diagram.png` via `os.replace`, and removes a
scratch sqlite file in a `finally` block whose own errors are swallowed.

The embedding below mirrors that code: schema metadata is an ordered list of
named tables, each an ordered list of columns carrying a primary-key flag and
a list of foreign-key references; `build_graph` is a pure function into a
`Digraph` record; the `__main__` pipeline is explicit state passing over a
file-system map, parameterised by oracles saying which render steps and which
cleanup removals succeed.
-/

namespace Models

/-- A foreign-key reference on a column: the code reads `fk.column.table.name`
(the target table) from each element of `col.foreign_keys`. -/
structure ForeignKey where
  targetTable : String
  targetColumn : String
deriving DecidableEq, Repr

/-- A column as `build_graph` reads it: `col.name`, `col.primary_key`,
`col.foreign_keys`. -/
structure Column where
  name : String
  primary_key : Bool
  foreign_keys : List ForeignKey
deriving DecidableEq, Repr

/-- A table definition: an ordered sequence of columns (`table.columns`). -/
structure Table where
  columns : List Column
deriving DecidableEq, Repr

/-- Schema metadata: `metadata.tables.items()` is an insertion-ordered mapping
from table name to table definition, modelled as an ordered association list. -/
structure Metadata where
  tables : List (String × Table)
deriving DecidableEq, Repr

/-- The graphviz `Digraph` state that `build_graph` constructs: graph-level
attributes set by `g.attr`, plus the node statements (name, label) and edge
statements (tail, head) in insertion order. -/
structure Digraph where
  name : String
  format : String
  nodesep : String
  ranksep : String
  rankdir : String
  nodeShape : String
  nodes : List (String × String)
  edges : List (String × String)
deriving DecidableEq, Repr

/-- Label of one field row: `colname = col.name`, with `' (PK)'` appended when
`col.primary_key`, then the graphviz left-justify terminator `\l`. -/
def fieldLabel (col : Column) : String :=
  (if col.primary_key then col.name ++ " (PK)" else col.name) ++ "\\l"

/-- Record label of one node: `'\x7b' + tname + '|' + ''.join(fields) + '\x7d'`. -/
def nodeLabel (tname : String) (table : Table) : String :=
  "\x7b" ++ tname ++ "|" ++ String.join (table.columns.map fieldLabel) ++ "\x7d"

/-- Shallow embedding of `build_graph(metadata, name, nodesep, ranksep, rankdir)`:
one node per table in metadata order, labelled by `nodeLabel`; then, in a second
pass over the same table list, one edge per foreign key of each column, from the
table name to `fk.column.table.name`. -/
def build_graph (metadata : Metadata) (name nodesep ranksep rankdir : String) : Digraph :=
  { name := name
    format := "png"
    nodesep := nodesep
    ranksep := ranksep
    rankdir := rankdir
    nodeShape := "record"
    nodes := metadata.tables.map (fun p => (p.1, nodeLabel p.1 p.2))
    edges := metadata.tables.flatMap (fun p =>
      p.2.columns.flatMap (fun col =>
        col.foreign_keys.map (fun fk => (p.1, fk.targetTable)))) }

/-- A primary-key column with no foreign keys. -/
def pkCol (n : String) : Column := ⟨n, true, []⟩

/-- A non-key column with no foreign keys. -/
def dataCol (n : String) : Column := ⟨n, false, []⟩

/-- A non-key column with a single foreign-key reference. -/
def fkCol (n tt tc : String) : Column := ⟨n, false, [⟨tt, tc⟩]⟩

/-- The `user` table of `models.py`, columns in declaration order. -/
def userTable : Table :=
  ⟨[pkCol "id", dataCol "username", dataCol "email", dataCol "password",
    dataCol "full_name", dataCol "bio", dataCol "website", dataCol "is_private",
    dataCol "is_verified", dataCol "created_at"]⟩

/-- The `post` table: `user_id` references `user.id`. -/
def postTable : Table :=
  ⟨[pkCol "id", fkCol "user_id" "user" "id", dataCol "caption",
    dataCol "location", dataCol "created_at", dataCol "is_archived"]⟩

/-- The `media` table: `post_id` references `post.id`. -/
def mediaTable : Table :=
  ⟨[pkCol "id", fkCol "post_id" "post" "id", dataCol "media_type",
    dataCol "url", dataCol "order"]⟩

/-- The `comment` table: FKs to `post.id`, `user.id`, and its own `comment.id`. -/
def commentTable : Table :=
  ⟨[pkCol "id", fkCol "post_id" "post" "id", fkCol "user_id" "user" "id",
    dataCol "content", dataCol "created_at", fkCol "parent_id" "comment" "id"]⟩

/-- The `like` table: FKs to `user.id` and `post.id`. -/
def likeTable : Table :=
  ⟨[pkCol "id", fkCol "user_id" "user" "id", fkCol "post_id" "post" "id",
    dataCol "created_at"]⟩

/-- The `follow` table: two FK columns both referencing `user.id`. -/
def followTable : Table :=
  ⟨[pkCol "id", fkCol "follower_id" "user" "id", fkCol "followed_id" "user" "id",
    dataCol "created_at", dataCol "is_accepted"]⟩

/-- `db.metadata` of `models.py`: the six tables in class-declaration order
(Python dicts, hence SQLAlchemy metadata, preserve insertion order). -/
def db_metadata : Metadata :=
  ⟨[("user", userTable), ("post", postTable), ("media", mediaTable),
    ("comment", commentTable), ("like", likeTable), ("follow", followTable)]⟩

/-- Whether `pat` occurs at the head of `cs` (character-list prefix test). -/
def leadsWith : List Char → List Char → Bool
  | [], _ => true
  | _ :: _, [] => false
  | p :: ps, c :: cs => p == c && leadsWith ps cs

/-- Number of positions of `cs` at which `pat` occurs (overlaps counted). -/
def countOcc (pat : List Char) : List Char → Nat
  | [] => 0
  | c :: cs => (if leadsWith pat (c :: cs) then 1 else 0) + countOcc pat cs

/-- The primary-key marker string appended to primary-key column labels. -/
def pkMarker : String := " (PK)"

/-- Contents a pipeline step can write to a path: the scratch sqlite database,
or a rendered image of a graph. -/
inductive FileContent
  | dbFile
  | image (g : Digraph)
deriving DecidableEq

/-- The file system as a partial map from path to content. -/
def FS := String → Option FileContent

/-- A file system with no files. -/
def emptyFS : FS := fun _ => none

/-- Write (create or overwrite) the file at `p`. -/
def setFile (fs : FS) (p : String) (c : FileContent) : FS :=
  fun q => if q = p then some c else fs q

/-- `os.remove(p)`: delete the file at `p`. -/
def removeFile (fs : FS) (p : String) : FS :=
  fun q => if q = p then none else fs q

/-- `os.path.exists(p)`. -/
def fileExists (fs : FS) (p : String) : Bool := (fs p).isSome

/-- The scratch database path, `tmp_db = 'tmp_instagram.db'`. -/
def tmp_db : String := "tmp_instagram.db"

/-- Exceptions the pipeline body can raise. -/
inductive PyErr
  | renderError (config : String)
  | replaceError
deriving DecidableEq

/-- `g.render(filename, cleanup=True)`: writes `filename + '.png'` when the
environment lets this configuration's render succeed (oracle `renderOk` keyed
by the graph's configuration name), otherwise raises and leaves the file
system as it was. -/
def renderStep (renderOk : String → Bool) (g : Digraph) (filename : String)
    (fs : FS) : Except PyErr Unit × FS :=
  if renderOk g.name then
    (Except.ok (), setFile fs (filename ++ ".png") (FileContent.image g))
  else
    (Except.error (PyErr.renderError g.name), fs)

/-- `os.replace(src, dst)`: atomically rename `src` onto `dst`, raising if
`src` does not exist. -/
def osReplace (fs : FS) (src dst : String) : Except PyErr Unit × FS :=
  match fs src with
  | some c => (Except.ok (), setFile (removeFile fs src) dst c)
  | none => (Except.error PyErr.replaceError, fs)

/-- The body of the `try:` block in `__main__`: remove a stale scratch db,
create the scratch db (`create_all`), render the compact, spaced and symmetric
configurations in order (each failure aborting the rest), then promote the
spaced output to `diagram.png` with `os.replace`. Returns the outcome and the
file system at exit, normal or exceptional. -/
def mainTryBody (renderOk : String → Bool) (fs0 : FS) : Except PyErr Unit × FS :=
  let fs := if fileExists fs0 tmp_db then removeFile fs0 tmp_db else fs0
  let fs := setFile fs tmp_db FileContent.dbFile
  let g1 := build_graph db_metadata "compact" "0.25" "0.5" "TB"
  match renderStep renderOk g1 "diagram_compact" fs with
  | (Except.error e, fs) => (Except.error e, fs)
  | (Except.ok _, fs) =>
    let g2 := build_graph db_metadata "spaced" "1.0" "1.2" "TB"
    match renderStep renderOk g2 "diagram_spaced" fs with
    | (Except.error e, fs) => (Except.error e, fs)
    | (Except.ok _, fs) =>
      let g3 := build_graph db_metadata "symmetric" "1.2" "1.0" "LR"
      match renderStep renderOk g3 "diagram_symmetric" fs with
      | (Except.error e, fs) => (Except.error e, fs)
      | (Except.ok _, fs) => osReplace fs "diagram_spaced.png" "diagram.png"

/-- The `finally:` block: `os.remove(tmp_db)` when the scratch db exists,
inside a `try/except` that swallows any cleanup error. `cleanupOk` is the
oracle for whether the removal itself succeeds; when it fails the exception is
swallowed and the file stays. -/
def finallyCleanup (cleanupOk : Bool) (fs : FS) : FS :=
  if fileExists fs tmp_db then
    (if cleanupOk then removeFile fs tmp_db else fs)
  else fs

/-- The whole `__main__` pipeline: the `try` body, then the `finally` cleanup
on whatever file system the body left, with the body's outcome propagated
unchanged (cleanup errors never escalate). -/
def runMain (renderOk : String → Bool) (cleanupOk : Bool) (fs0 : FS) :
    Except PyErr Unit × FS :=
  let r := mainTryBody renderOk fs0
  (r.1, finallyCleanup cleanupOk r.2)

theorem setFile_ne (fs : FS) (p : String) (c : FileContent) (q : String)
    (h : q ≠ p) : setFile fs p c q = fs q := by
  simp [setFile, h]

theorem setFile_eq (fs : FS) (p : String) (c : FileContent) :
    setFile fs p c p = some c := by
  simp [setFile]

theorem removeFile_ne (fs : FS) (p q : String) (h : q ≠ p) :
    removeFile fs p q = fs q := by
  simp [removeFile, h]

theorem finallyCleanup_ne (c : Bool) (fs : FS) (q : String) (hq : q ≠ tmp_db) :
    finallyCleanup c fs q = fs q := by
  unfold finallyCleanup
  split
  · split
    · exact removeFile_ne fs tmp_db q hq
    · rfl
  · rfl

theorem prelude_ne (fs0 : FS) (q : String) (hq : q ≠ tmp_db) :
    setFile (if fileExists fs0 tmp_db then removeFile fs0 tmp_db else fs0)
      tmp_db FileContent.dbFile q = fs0 q := by
  rw [setFile_ne _ _ _ _ hq]
  split
  · exact removeFile_ne fs0 tmp_db q hq
  · rfl

/-- C1: for every schema metadata input and any two layout configurations
(name, node separation, rank separation, rank direction), the graphs produced
by `build_graph` have the same node list (names and labels), the same edge
sequence, hence the same node and edge counts; the output format and node
shape also agree, so only the name and the spacing/orientation attributes can
differ. -/
theorem layout_params_do_not_change_nodes_or_edges
    (md : Metadata) (n1 s1 r1 d1 n2 s2 r2 d2 : String) :
    (build_graph md n1 s1 r1 d1).nodes = (build_graph md n2 s2 r2 d2).nodes ∧
    (build_graph md n1 s1 r1 d1).edges = (build_graph md n2 s2 r2 d2).edges ∧
    (build_graph md n1 s1 r1 d1).nodes.length
      = (build_graph md n2 s2 r2 d2).nodes.length ∧
    (build_graph md n1 s1 r1 d1).edges.length
      = (build_graph md n2 s2 r2 d2).edges.length ∧
    (build_graph md n1 s1 r1 d1).format = (build_graph md n2 s2 r2 d2).format ∧
    (build_graph md n1 s1 r1 d1).nodeShape
      = (build_graph md n2 s2 r2 d2).nodeShape :=
  ⟨rfl, rfl, rfl, rfl, rfl, rfl⟩

/-- C8: graph construction is pure and deterministic — two invocations of
`build_graph` on equal metadata with the same layout parameters yield the very
same node list, the same edge list, and the same graph record (hence identical
insertion order). -/
theorem build_graph_deterministic (md1 md2 : Metadata) (n s r d : String)
    (h : md1 = md2) :
    (build_graph md1 n s r d).nodes = (build_graph md2 n s r d).nodes ∧
    (build_graph md1 n s r d).edges = (build_graph md2 n s r d).edges ∧
    build_graph md1 n s r d = build_graph md2 n s r d := by
  subst h
  exact ⟨rfl, rfl, rfl⟩

/-- Witness for C8 at the repository's own metadata. -/
theorem build_graph_deterministic_witness :
    (build_graph db_metadata "compact" "0.25" "0.5" "TB").nodes
      = (build_graph db_metadata "compact" "0.25" "0.5" "TB").nodes ∧
    (build_graph db_metadata "compact" "0.25" "0.5" "TB").edges
      = (build_graph db_metadata "compact" "0.25" "0.5" "TB").edges ∧
    build_graph db_metadata "compact" "0.25" "0.5" "TB"
      = build_graph db_metadata "compact" "0.25" "0.5" "TB" :=
  build_graph_deterministic db_metadata db_metadata "compact" "0.25" "0.5" "TB" rfl

/-- C10: on the repository's declared schema, `build_graph` produces exactly
the six nodes user, post, media, comment, like, follow (in declaration order)
and exactly the nine edges post→user, media→post, comment→post, comment→user,
comment→comment (a self-loop), like→user, like→post and two parallel
follow→user edges, under every layout configuration. -/
theorem concrete_schema_graph (n s r d : String) :
    (build_graph db_metadata n s r d).nodes.map Prod.fst
      = ["user", "post", "media", "comment", "like", "follow"] ∧
    (build_graph db_metadata n s r d).edges
      = [("post","user"), ("media","post"), ("comment","post"),
         ("comment","user"), ("comment","comment"), ("like","user"),
         ("like","post"), ("follow","user"), ("follow","user")] ∧
    (build_graph db_metadata n s r d).nodes.length = 6 ∧
    (build_graph db_metadata n s r d).edges.length = 9 :=
  ⟨rfl, rfl, rfl, rfl⟩

/-- C6: the comment table, whose `parent_id` column references the comment
table's own primary key, yields exactly one self-loop edge ("comment",
"comment") in the constructed graph — its source and target are both the
table's name — and `build_graph` (a total function) succeeds on this input. -/
theorem comment_self_loop_edge :
    ((build_graph db_metadata "compact" "0.25" "0.5" "TB").edges.filter
      (fun e => e == ("comment", "comment"))).length = 1 ∧
    ("comment", "comment") ∈ (build_graph db_metadata "compact" "0.25" "0.5" "TB").edges := by
  decide

/-- C4: `build_graph` emits exactly one node per declared table and exactly
one edge per foreign-key reference on any column of any table (cardinalities
preserved, for every metadata input); on the repository's schema the two FK
columns of follow targeting user yield two parallel follow→user edges that
are not deduplicated. -/
theorem one_node_per_table_one_edge_per_fk (md : Metadata) (n s r d : String) :
    (build_graph md n s r d).nodes.length = md.tables.length ∧
    (build_graph md n s r d).edges.length
      = (md.tables.map (fun p =>
          (p.2.columns.map (fun c => c.foreign_keys.length)).sum)).sum ∧
    ((build_graph db_metadata n s r d).edges.filter
      (fun e => e == ("follow", "user"))).length = 2 := by
  refine ⟨by simp [build_graph], ?_, rfl⟩
  simp only [build_graph, List.length_flatMap]
  congr 1
  apply List.map_congr_left
  intro p _
  simp only [Function.comp, List.length_flatMap]
  congr 1
  apply List.map_congr_left
  intro c _
  simp [Function.comp]

/-- C5: for every column of every table of the repository's schema, the field
label rendered into its node's record label carries the primary-key marker
" (PK)" exactly once when the column is flagged primary-key — appended as a
suffix to the column name, before the row terminator — and never carries the
marker when the column is not flagged primary-key. -/
theorem pk_marker_exactly_once (p : String × Table) (hp : p ∈ db_metadata.tables)
    (c : Column) (hc : c ∈ p.2.columns) :
    countOcc pkMarker.data (fieldLabel c).data
      = (if c.primary_key then 1 else 0) ∧
    (c.primary_key = true → fieldLabel c = c.name ++ " (PK)" ++ "\\l") ∧
    (c.primary_key = false → countOcc pkMarker.data (fieldLabel c).data = 0) := by
  have H : ∀ p ∈ db_metadata.tables, ∀ c ∈ p.2.columns,
      countOcc pkMarker.data (fieldLabel c).data
        = (if c.primary_key then 1 else 0) ∧
      (c.primary_key = true → fieldLabel c = c.name ++ " (PK)" ++ "\\l") ∧
      (c.primary_key = false → countOcc pkMarker.data (fieldLabel c).data = 0) := by
    decide
  exact H p hp c hc

/-- Witness for C5 at the user table's `id` column. -/
theorem pk_marker_exactly_once_witness :
    countOcc pkMarker.data (fieldLabel (pkCol "id")).data = 1 ∧
    ((pkCol "id").primary_key = true →
      fieldLabel (pkCol "id") = (pkCol "id").name ++ " (PK)" ++ "\\l") ∧
    ((pkCol "id").primary_key = false →
      countOcc pkMarker.data (fieldLabel (pkCol "id")).data = 0) :=
  pk_marker_exactly_once ("user", userTable) (by decide) (pkCol "id") (by decide)

/-- C9: for any metadata whose foreign keys only reference declared tables,
every edge of the graph built by `build_graph` has both its source table name
and its target table name present among the graph's node names. -/
theorem edge_endpoints_are_nodes (md : Metadata) (n s r d : String)
    (h : ∀ p ∈ md.tables, ∀ c ∈ p.2.columns, ∀ fk ∈ c.foreign_keys,
        fk.targetTable ∈ md.tables.map Prod.fst) :
    ∀ e ∈ (build_graph md n s r d).edges,
      e.1 ∈ (build_graph md n s r d).nodes.map Prod.fst ∧
      e.2 ∈ (build_graph md n s r d).nodes.map Prod.fst := by
  intro e he
  simp only [build_graph, List.mem_flatMap, List.mem_map] at he
  obtain ⟨p, hp, c, hc, fk, hfk, rfl⟩ := he
  constructor
  · simp only [build_graph, List.map_map, List.mem_map, Function.comp]
    exact ⟨p, hp, rfl⟩
  · have htgt := h p hp c hc fk hfk
    simp only [List.mem_map] at htgt
    obtain ⟨q, hq, hq1⟩ := htgt
    simp only [build_graph, List.map_map, List.mem_map, Function.comp]
    exact ⟨q, hq, hq1⟩

/-- Witness for C9: the post→user edge of the repository's schema, whose
endpoints both appear among the graph's node names. -/
theorem edge_endpoints_are_nodes_witness :
    (("post", "user") : String × String).1
      ∈ (build_graph db_metadata "compact" "0.25" "0.5" "TB").nodes.map Prod.fst ∧
    (("post", "user") : String × String).2
      ∈ (build_graph db_metadata "compact" "0.25" "0.5" "TB").nodes.map Prod.fst :=
  edge_endpoints_are_nodes db_metadata "compact" "0.25" "0.5" "TB" (by decide)
    ("post", "user") (by decide)

theorem build_graph_name (md : Metadata) (n s r d : String) :
    (build_graph md n s r d).name = n := rfl

/-- C2: if any of the three render steps fails, the `os.replace` promotion to
`diagram.png` never executes: the canonical path holds exactly what it held in
the initial file system (not produced if absent, not updated if present). In
particular this covers a failure of the symmetric configuration's render. -/
theorem render_failure_blocks_canonical_copy
    (renderOk : String → Bool) (cleanupOk : Bool) (fs0 : FS)
    (h : renderOk "compact" = false ∨ renderOk "spaced" = false ∨
         renderOk "symmetric" = false) :
    (runMain renderOk cleanupOk fs0).2 "diagram.png" = fs0 "diagram.png" := by
  have hq : ("diagram.png" : String) ≠ tmp_db := by decide
  cases hc : renderOk "compact" with
  | false =>
    simp only [runMain, mainTryBody, renderStep, build_graph_name, hc,
      Bool.false_eq_true, if_false]
    rw [finallyCleanup_ne _ _ _ hq]
    exact prelude_ne fs0 _ hq
  | true =>
    cases hs : renderOk "spaced" with
    | false =>
      simp only [runMain, mainTryBody, renderStep, build_graph_name, hc, hs,
        Bool.false_eq_true, if_false, if_true]
      rw [finallyCleanup_ne _ _ _ hq, setFile_ne _ _ _ _ (by decide)]
      exact prelude_ne fs0 _ hq
    | true =>
      cases hy : renderOk "symmetric" with
      | false =>
        simp only [runMain, mainTryBody, renderStep, build_graph_name, hc, hs,
          hy, Bool.false_eq_true, if_false, if_true]
        rw [finallyCleanup_ne _ _ _ hq, setFile_ne _ _ _ _ (by decide),
          setFile_ne _ _ _ _ (by decide)]
        exact prelude_ne fs0 _ hq
      | true =>
        exfalso
        simp [hc, hs, hy] at h

/-- Witness for C2: with every render failing on an empty file system, the
canonical path still maps to what the empty file system held. -/
theorem render_failure_blocks_canonical_copy_witness :
    (runMain (fun _ => false) true emptyFS).2 "diagram.png"
      = emptyFS "diagram.png" :=
  render_failure_blocks_canonical_copy (fun _ => false) true emptyFS (Or.inl rfl)

/-- C3 counterexample: in a concrete fully successful run (every render
succeeds, starting from an empty file system) the pipeline returns normally,
yet the spaced configuration's own artifact `diagram_spaced.png` does NOT
exist afterwards — `os.replace` renames it away rather than copying it — so
the claim that all four files exist after a successful run is false. -/
theorem spaced_artifact_renamed_away :
    (runMain (fun _ => true) true emptyFS).1 = Except.ok () ∧
    fileExists (runMain (fun _ => true) true emptyFS).2 "diagram_spaced.png"
      = false ∧
    (runMain (fun _ => true) true emptyFS).2 "diagram_spaced.png" = none :=
  ⟨rfl, rfl, rfl⟩

/-- C3 (amended): after a fully successful run the pipeline returns normally
and exactly three artifacts exist: the compact render at
`diagram_compact.png`, the symmetric render at `diagram_symmetric.png`, and
the canonical `diagram.png` whose content is exactly the spaced
configuration's rendered output (node-sep 1.0, rank-sep 1.2, top-to-bottom);
the spaced configuration's own path `diagram_spaced.png` no longer exists,
having been renamed onto the canonical path. -/
theorem successful_run_artifacts
    (renderOk : String → Bool) (cleanupOk : Bool) (fs0 : FS)
    (hc : renderOk "compact" = true) (hs : renderOk "spaced" = true)
    (hy : renderOk "symmetric" = true) :
    (runMain renderOk cleanupOk fs0).1 = Except.ok () ∧
    (runMain renderOk cleanupOk fs0).2 "diagram_compact.png"
      = some (FileContent.image (build_graph db_metadata "compact" "0.25" "0.5" "TB")) ∧
    (runMain renderOk cleanupOk fs0).2 "diagram_symmetric.png"
      = some (FileContent.image (build_graph db_metadata "symmetric" "1.2" "1.0" "LR")) ∧
    (runMain renderOk cleanupOk fs0).2 "diagram.png"
      = some (FileContent.image (build_graph db_metadata "spaced" "1.0" "1.2" "TB")) ∧
    (runMain renderOk cleanupOk fs0).2 "diagram_spaced.png" = none := by
  cases cleanupOk <;>
    simp [runMain, mainTryBody, renderStep, osReplace, finallyCleanup,
      build_graph_name, hc, hs, hy, setFile, removeFile, fileExists, tmp_db]

/-- Witness for C3 (amended): the concrete fully successful run. -/
theorem successful_run_artifacts_witness :
    (runMain (fun _ => true) true emptyFS).1 = Except.ok () ∧
    (runMain (fun _ => true) true emptyFS).2 "diagram_compact.png"
      = some (FileContent.image (build_graph db_metadata "compact" "0.25" "0.5" "TB")) ∧
    (runMain (fun _ => true) true emptyFS).2 "diagram_symmetric.png"
      = some (FileContent.image (build_graph db_metadata "symmetric" "1.2" "1.0" "LR")) ∧
    (runMain (fun _ => true) true emptyFS).2 "diagram.png"
      = some (FileContent.image (build_graph db_metadata "spaced" "1.0" "1.2" "TB")) ∧
    (runMain (fun _ => true) true emptyFS).2 "diagram_spaced.png" = none :=
  successful_run_artifacts (fun _ => true) true emptyFS rfl rfl rfl

/-- C7: the scratch database is cleaned up on every exit path and cleanup
errors are swallowed: whatever the render oracle does (success or any
failure), the pipeline's outcome is the same whether or not the cleanup
removal succeeds — a cleanup error never escalates or masks the primary
result — and whenever the cleanup removal itself succeeds, the scratch file
`tmp_instagram.db` is absent from the final file system. -/
theorem cleanup_on_all_exit_paths
    (renderOk : String → Bool) (cleanupOk : Bool) (fs0 : FS) :
    (runMain renderOk cleanupOk fs0).1 = (runMain renderOk true fs0).1 ∧
    (runMain renderOk true fs0).2 tmp_db = none := by
  constructor
  · rfl
  · show finallyCleanup true (mainTryBody renderOk fs0).2 tmp_db = none
    unfold finallyCleanup
    cases hval : (mainTryBody renderOk fs0).2 tmp_db with
    | none => simp [fileExists, hval]
    | some c => simp [fileExists, hval, removeFile]

end Models
